import Mathlib

/-!
Shallow embedding of the AstroPlant camera module
(`astroplant_camera_module/cameras/pi_cam_V21.py`), covering the
`PI_CAM_V21` class: gain calibration (`update`), capture with dark-frame
subtraction (`capture`), white-balance calibration
(`calibrate_white_balance`), the gain bootstrap (`setup_d2d`) and the
isolated capture worker (`photo_worker`).

Side effects (light-control callbacks, sensor session open/close, worker
spawns, configuration persistence) are recorded as an explicit event trace.
Python floats are modelled as exact rationals; the step constants
(1.1, 0.025, 0.4, 0.575) are exact decimal fractions.  Machine `uint8`
pixels are modelled as naturals; `cv2.subtract` saturates at zero, which
truncated natural subtraction reproduces.
-/

/-- Light channel enumeration (`LC` in `typedef.py`).  Modelled from the
spec: the `typedef` module is not among the sources; the spec gives the
variant set as WHITE, GROWTH and further channels, and the routines file
mentions red lighting pins, so a representative extra channel `RED` is
included. -/
inductive LC where
  | WHITE
  | GROWTH
  | RED
deriving DecidableEq, Repr

/-- A white-balance entry `config["wb"][channel]`: red and blue gains. -/
structure WBEntry where
  r : ℚ
  b : ℚ
deriving DecidableEq, Repr

/-- A gain entry `config["d2d"][channel]`: analog and digital gain. -/
structure D2DEntry where
  analog_gain : ℚ
  digital_gain : ℚ
deriving DecidableEq, Repr

/-- Association-list lookup, the shallow model of a Python dict read
`m[c]`: `none` models a raised `KeyError`. -/
def alookup {α : Type} : List (LC × α) → LC → Option α
  | [], _ => none
  | (k, w) :: t, c => if k = c then some w else alookup t c

/-- Association-list write, the shallow model of a Python dict assignment
`m[c] = v`: replaces the value in place or appends a new key. -/
def aset {α : Type} : List (LC × α) → LC → α → List (LC × α)
  | [], c, v => [(c, v)]
  | (k, w) :: t, c, v => if k = c then (c, v) :: t else (k, w) :: aset t c v

/-- The `config["d2d"]` section: per-channel gain entries plus the
`"timestamp"` key. -/
structure D2DSection where
  entries : List (LC × D2DEntry)
  timestamp : ℚ
deriving DecidableEq, Repr

/-- The in-memory configuration dict `self.config`.  `cam_id`, `rotation`
and the `wb` map are initialised by the camera base class; the `d2d`
section may be absent (`"d2d" not in self.config`). -/
structure Config where
  cam_id : Int
  rotation : Int
  wb : List (LC × WBEntry)
  d2d : Option D2DSection
deriving DecidableEq, Repr

/-- Camera state: the in-memory configuration plus the persisted
configuration file (`none` when no file exists). -/
structure CamState where
  config : Config
  disk : Option Config
deriving DecidableEq, Repr

/-- Observable events: light-control callbacks `light_control(c, 1)` /
`light_control(c, 0)`, sensor session open/close, worker-process spawns
and configuration saves. -/
inductive Event where
  | lightOn (c : LC)
  | lightOff (c : LC)
  | sensorOpen
  | sensorClose
  | spawn
  | save
deriving DecidableEq, Repr

/-- Failures: `KeyError` on a missing dict key, a hardware/session error
while reading sensor gains, `subprocess.TimeoutExpired` in the worker, and
a missing image file at `Image.open`. -/
inductive Err where
  | keyError
  | hardwareError
  | workerTimeout
  | fileNotFound
deriving DecidableEq, Repr

namespace SETTINGS_V5

/-- `SETTINGS_V5.allowed_channels = [LC.WHITE, LC.GROWTH]`. -/
def allowed_channels : List LC := [LC.WHITE, LC.GROWTH]

/-- `SETTINGS_V5.framerate`: a dict with keys WHITE and GROWTH only. -/
def framerate : LC → Option ℚ
  | LC.WHITE => some (10 / 4)
  | LC.GROWTH => some 30
  | LC.RED => none

/-- `SETTINGS_V5.shutter_speed`: a dict with keys WHITE and GROWTH only. -/
def shutter_speed : LC → Option ℕ
  | LC.WHITE => some 400000
  | LC.GROWTH => some 4000
  | LC.RED => none

/-- `SETTINGS_V5.wb`: a dict with the single key GROWTH,
`r = 0.4`, `b = 0.575`. -/
def wb : LC → Option WBEntry
  | LC.GROWTH => some ⟨0.4, 0.575⟩
  | _ => none

end SETTINGS_V5

/-- `self.CAM_ID = 2` for `PI_CAM_V21`. -/
def CAM_ID : Int := 2

/-- Modelled from the spec: `save_config_to_file` lives in the camera base
class, absent from the sources; per the spec it performs a full atomic
overwrite of the persisted record with the in-memory one. -/
def saveConfig (st : CamState) : CamState :=
  { st with disk := some st.config }

/-- `PI_CAM_V21.setup_d2d`: create `config["d2d"]` with analog and digital
gain 1.0 for the WHITE and GROWTH channels, stamp it with the current
time, and save the configuration to file.  Returns the new state and the
event trace. -/
def setup_d2d (now : ℚ) (st : CamState) : CamState × List Event :=
  let st :=
    { st with
      config :=
        { st.config with
          d2d := some ⟨[(LC.WHITE, ⟨1, 1⟩), (LC.GROWTH, ⟨1, 1⟩)], now⟩ } }
  (saveConfig st, [Event.save])

/-- The `__init__` calibration check: on a successful configuration load
(`some c`) the camera is calibrated iff `config["cam_id"] == self.CAM_ID`;
on `EnvironmentError`/`ValueError` (`none`) it is not calibrated. -/
def initCalibrated (loadResult : Option Config) : Bool :=
  match loadResult with
  | some c => c.cam_id = CAM_ID
  | none => false

/-- The `__init__` light-channel filter: keep the requested channels that
are in `settings.allowed_channels`. -/
def initLightChannels (requested : List LC) : List LC :=
  requested.filter (fun c => c ∈ SETTINGS_V5.allowed_channels)

/-- Result of an `update` run: final state, event trace, and the raised
error (if any); an error propagates to the caller. -/
structure UpdateOut where
  st : CamState
  trace : List Event
  err : Option Err
deriving DecidableEq, Repr

/-- The per-channel loop body of `PI_CAM_V21.update`, in source order:
turn the light on, open a sensor session, configure it (the
`settings.framerate[channel]` and `settings.shutter_speed[channel]` dict
reads can raise `KeyError`), read `config["wb"][channel]` for the awb
gains (`KeyError` if absent), read the settled analog/digital gains
(`measure`, `none` modelling a hardware/session error), write them into
`config["d2d"][channel]`, close the session and turn the light off.  The
`with` block closes the sensor on every exit; on an in-block error the
light-off call is skipped and the error propagates. -/
def updateLoop (measure : LC → Option (ℚ × ℚ)) :
    List LC → CamState → UpdateOut
  | [], st => ⟨st, [], none⟩
  | c :: rest, st =>
    let pre := [Event.lightOn c, Event.sensorOpen]
    match SETTINGS_V5.framerate c, SETTINGS_V5.shutter_speed c with
    | none, _ => ⟨st, pre ++ [Event.sensorClose], some Err.keyError⟩
    | some _, none => ⟨st, pre ++ [Event.sensorClose], some Err.keyError⟩
    | some _, some _ =>
      match alookup st.config.wb c with
      | none => ⟨st, pre ++ [Event.sensorClose], some Err.keyError⟩
      | some _ =>
        match measure c with
        | none => ⟨st, pre ++ [Event.sensorClose], some Err.hardwareError⟩
        | some (ag, dg) =>
          match st.config.d2d with
          | none => ⟨st, pre ++ [Event.sensorClose], some Err.keyError⟩
          | some sec =>
            match alookup sec.entries c with
            | none => ⟨st, pre ++ [Event.sensorClose], some Err.keyError⟩
            | some _ =>
              let sec := { sec with entries := aset sec.entries c ⟨ag, dg⟩ }
              let st := { st with config := { st.config with d2d := some sec } }
              let out := updateLoop measure rest st
              ⟨out.st,
               pre ++ [Event.sensorClose, Event.lightOff c] ++ out.trace,
               out.err⟩

/-- `PI_CAM_V21.update`: bootstrap the `d2d` section if absent (which
itself saves), run the per-channel measurement loop over
`self.light_channels` (`chans`), then stamp `config["d2d"]["timestamp"]`
with the current time and save the configuration to file.  A mid-loop
error propagates, skipping the stamp and the save. -/
def update (measure : LC → Option (ℚ × ℚ)) (chans : List LC) (now : ℚ)
    (st : CamState) : UpdateOut :=
  let boot : CamState × List Event :=
    if st.config.d2d.isNone then setup_d2d now st else (st, [])
  let lo := updateLoop measure chans boot.1
  match lo.err with
  | some e => ⟨lo.st, boot.2 ++ lo.trace, some e⟩
  | none =>
    match lo.st.config.d2d with
    | none => ⟨lo.st, boot.2 ++ lo.trace, some Err.keyError⟩
    | some sec =>
      let st1 :=
        { lo.st with
          config := { lo.st.config with d2d := some { sec with timestamp := now } } }
      ⟨saveConfig st1, boot.2 ++ lo.trace ++ [Event.save], none⟩

/-- `photo_worker`: runs the capture command via
`subprocess.run(cmd, shell=True, timeout=20)` inside the spawned worker
process; exceeding the 20 s bound raises `TimeoutExpired` there, killing
the worker.  `completes` is whether the command finished within the
bound. -/
def photo_worker (completes : Bool) : Except Err Unit :=
  if completes then Except.ok () else Except.error Err.workerTimeout

/-- Environment of one `capture` call: whether each of the two worker
spawns succeeds (`OSError` otherwise), whether each worker's external
command completes within the 20 s timeout, the image the command would
write, and the pre-existing contents of the fixed bright/dark image
paths (stale files from earlier captures, `none` if no file). -/
structure CaptureEnv where
  spawnBrightOk : Bool
  spawnDarkOk : Bool
  brightCompletes : Bool
  darkCompletes : Bool
  brightImage : List ℕ
  darkImage : List ℕ
  fsBright : Option (List ℕ)
  fsDark : Option (List ℕ)
deriving DecidableEq, Repr

/-- `cv2.subtract` on `uint8` arrays: pixel-wise difference saturated at
zero (truncated natural subtraction). -/
def cv2subtract (a b : List ℕ) : List ℕ :=
  List.zipWith (fun x y => x - y) a b

/-- Outcome of `capture`: a successful `(rgb, gain)` pair, the
`(None, 0)` return on worker-spawn failure, or a propagated exception. -/
inductive CaptureRes where
  | ok (img : List ℕ) (gain : ℚ)
  | noImage
  | error (e : Err)
deriving DecidableEq, Repr

/-- Result of a `capture` call: final state, event trace and outcome. -/
structure CaptureOut where
  st : CamState
  trace : List Event
  result : CaptureRes
deriving DecidableEq, Repr

/-- The body of `PI_CAM_V21.capture` from the light-on call onward (source
lines 170-211), in source order: turn the light on; compute `gain` from
`config["d2d"][channel]`; build the raspistill command (reading
`settings.shutter_speed[channel]` and `config["wb"][channel]`, both
possible `KeyError`s); spawn the bright worker (on `OSError` return
`(None, 0)`); turn the light off; spawn the dark worker (on `OSError`
return `(None, 0)`); load the bright image from file; for channels other
than GROWTH load the dark image and apply `cv2.subtract`; if the stored
gain timestamp is more than 24 hours old, run `update`; return
`(rgb, gain)`.  The worker's exit status is never inspected: a timed-out
worker leaves the image path with whatever file was there before.
`btr` is the trace accumulated by the bootstrap prologue. -/
def captureMain (env : CaptureEnv) (measure : LC → Option (ℚ × ℚ))
    (chans : List LC) (now : ℚ) (channel : LC) (st : CamState)
    (btr : List Event) : CaptureOut :=
    let tr := btr ++ [Event.lightOn channel]
    match st.config.d2d with
    | none => ⟨st, tr, CaptureRes.error Err.keyError⟩
    | some sec =>
      match alookup sec.entries channel with
      | none => ⟨st, tr, CaptureRes.error Err.keyError⟩
      | some entry =>
        let gain := entry.analog_gain * entry.digital_gain
        match SETTINGS_V5.shutter_speed channel, alookup st.config.wb channel with
        | none, _ => ⟨st, tr, CaptureRes.error Err.keyError⟩
        | some _, none => ⟨st, tr, CaptureRes.error Err.keyError⟩
        | some _, some _ =>
          if env.spawnBrightOk then
            let tr := tr ++ [Event.spawn]
            let fsB :=
              match photo_worker env.brightCompletes with
              | Except.ok _ => some env.brightImage
              | Except.error _ => env.fsBright
            let tr := tr ++ [Event.lightOff channel]
            if env.spawnDarkOk then
              let tr := tr ++ [Event.spawn]
              let fsD :=
                match photo_worker env.darkCompletes with
                | Except.ok _ => some env.darkImage
                | Except.error _ => env.fsDark
              match fsB with
              | none => ⟨st, tr, CaptureRes.error Err.fileNotFound⟩
              | some bright =>
                let rgbE : Except Err (List ℕ) :=
                  if channel ≠ LC.GROWTH then
                    match fsD with
                    | none => Except.error Err.fileNotFound
                    | some dark => Except.ok (cv2subtract bright dark)
                  else Except.ok bright
                match rgbE with
                | Except.error e => ⟨st, tr, CaptureRes.error e⟩
                | Except.ok rgb =>
                  if now - sec.timestamp > 3600 * 24 then
                    let u := update measure chans now st
                    match u.err with
                    | some e => ⟨u.st, tr ++ u.trace, CaptureRes.error e⟩
                    | none => ⟨u.st, tr ++ u.trace, CaptureRes.ok rgb gain⟩
                  else ⟨st, tr, CaptureRes.ok rgb gain⟩
            else ⟨st, tr, CaptureRes.noImage⟩
          else ⟨st, tr, CaptureRes.noImage⟩

/-- `PI_CAM_V21.capture`: when `"d2d" not in self.config`, first run the
bootstrap `setup_d2d()` followed by `update()` (a bootstrap-update error
propagates out of `capture`), then continue with the capture body
`captureMain`. -/
def capture (env : CaptureEnv) (measure : LC → Option (ℚ × ℚ))
    (chans : List LC) (now : ℚ) (channel : LC) (st : CamState) : CaptureOut :=
  if st.config.d2d.isNone then
    let s1 := setup_d2d now st
    let u := update measure chans now s1.1
    match u.err with
    | some e => ⟨u.st, s1.2 ++ u.trace, CaptureRes.error e⟩
    | none => captureMain env measure chans now channel u.st (s1.2 ++ u.trace)
  else captureMain env measure chans now channel st []

/-- One iteration of the white-balance adjustment in
`calibrate_white_balance` (source lines 258-267): given the current
`(rg, bg)` and the measured channel means `(r, g, b)` of the reference
crop, step `rg` by 0.025 when the red mean differs from the green mean by
more than 1 (decrease if red is larger, else increase), and independently
step `bg` the same way against the blue mean. -/
def wbStep (gains : ℚ × ℚ) (means : ℚ × ℚ × ℚ) : ℚ × ℚ :=
  let rg := gains.1
  let bg := gains.2
  let r := means.1
  let g := means.2.1
  let b := means.2.2
  let rg := if |r - g| > 1 then (if r > g then rg - 0.025 else rg + 0.025) else rg
  let bg := if |b - g| > 1 then (if b > g then bg - 0.025 else bg + 0.025) else bg
  (rg, bg)

/-- The `for i in range(30)` loop of `calibrate_white_balance`: at
iteration `i` a fresh frame is captured with the current gains (`sensor i
gains` gives the crop means) and the step rule is applied; `fuel`
iterations remain. -/
def wbIter (sensor : ℕ → ℚ × ℚ → ℚ × ℚ × ℚ) : ℕ → ℕ → ℚ × ℚ → ℚ × ℚ
  | _, 0, gains => gains
  | i, fuel + 1, gains => wbIter sensor (i + 1) fuel (wbStep gains (sensor i gains))

/-- Result of a `calibrate_white_balance` call. -/
structure WBOut where
  st : CamState
  trace : List Event
  err : Option Err
deriving DecidableEq, Repr

/-- `PI_CAM_V21.calibrate_white_balance`: turn the channel light on; for
the WHITE channel open a sensor session (reading `config["rotation"]`,
`settings.framerate[channel]` and `settings.shutter_speed[channel]`),
start from gains `(1.1, 1.1)` and run the 30-iteration adjustment loop;
for any other channel take the static GROWTH defaults
`settings.wb[LC.GROWTH]`; then turn the light off and store the result in
`config["wb"][channel]`.  No allowed-channels check is performed and the
configuration file is not saved. -/
def calibrate_white_balance (sensor : ℕ → ℚ × ℚ → ℚ × ℚ × ℚ) (channel : LC)
    (st : CamState) : WBOut :=
  let tr := [Event.lightOn channel]
  if channel = LC.WHITE then
    match SETTINGS_V5.framerate channel, SETTINGS_V5.shutter_speed channel with
    | none, _ => ⟨st, tr ++ [Event.sensorOpen, Event.sensorClose], some Err.keyError⟩
    | some _, none => ⟨st, tr ++ [Event.sensorOpen, Event.sensorClose], some Err.keyError⟩
    | some _, some _ =>
      let gains := wbIter sensor 0 30 (1.1, 1.1)
      let tr := tr ++ [Event.sensorOpen, Event.sensorClose, Event.lightOff channel]
      ⟨{ st with
         config :=
           { st.config with
             wb := aset st.config.wb channel ⟨gains.1, gains.2⟩ } },
       tr, none⟩
  else
    match SETTINGS_V5.wb LC.GROWTH with
    | none => ⟨st, tr, some Err.keyError⟩
    | some d =>
      ⟨{ st with
         config :=
           { st.config with
             wb := aset st.config.wb channel ⟨d.r, d.b⟩ } },
       tr ++ [Event.lightOff channel], none⟩

/-- Spec-side step rule, written from the spec's words (sections 4.3 and
8): "If the difference between red_mean and green_mean exceeds a
tolerance (1.0 intensity unit), step red_gain by a fixed increment
(0.025) toward reducing the imbalance (decrease if red_mean > green_mean,
else increase); apply the same rule independently for blue vs green." -/
def wbSpecStep (gains : ℚ × ℚ) (means : ℚ × ℚ × ℚ) : ℚ × ℚ :=
  let redDelta : ℚ :=
    if |means.1 - means.2.1| > 1 then
      if means.1 > means.2.1 then -0.025 else 0.025
    else 0
  let blueDelta : ℚ :=
    if |means.2.2 - means.2.1| > 1 then
      if means.2.2 > means.2.1 then -0.025 else 0.025
    else 0
  (gains.1 + redDelta, gains.2 + blueDelta)

/-- Spec-side deterministic trace: start from `(1.1, 1.1)` and apply the
spec's step rule for exactly 30 iterations, feeding the sensor response
of the current gains back each time. -/
def wbSpecTrace (sensor : ℕ → ℚ × ℚ → ℚ × ℚ × ℚ) : ℚ × ℚ :=
  (List.range 30).foldl (fun gains i => wbSpecStep gains (sensor i gains)) (1.1, 1.1)

/-- Number of `save` events (persistence operations) in a trace. -/
def countSave : List Event → ℕ
  | [] => 0
  | Event.save :: t => countSave t + 1
  | _ :: t => countSave t

/-- Number of `spawn` events (worker-process spawns) in a trace. -/
def countSpawn : List Event → ℕ
  | [] => 0
  | Event.spawn :: t => countSpawn t + 1
  | _ :: t => countSpawn t

/-- A white-balance map with entries for WHITE and GROWTH. -/
def wbGood : List (LC × WBEntry) :=
  [(LC.WHITE, ⟨1.1, 1.1⟩), (LC.GROWTH, ⟨0.4, 0.575⟩)]

/-- A gain section with entries for WHITE and GROWTH, timestamp 0. -/
def secGood : D2DSection :=
  ⟨[(LC.WHITE, ⟨2, 1⟩), (LC.GROWTH, ⟨3, 1⟩)], 0⟩

/-- A fully calibrated configuration for this camera. -/
def cfgGood : Config := ⟨2, 0, wbGood, some secGood⟩

/-- A calibrated camera state whose persisted file matches memory. -/
def stGood : CamState := ⟨cfgGood, some cfgGood⟩

/-- A configuration with no `d2d` section. -/
def cfgNoD2D : Config := ⟨2, 0, wbGood, none⟩

/-- A camera state with no gain section, persisted file in the same state. -/
def stNoD2D : CamState := ⟨cfgNoD2D, some cfgNoD2D⟩

/-- A camera state with a gain section but an empty white-balance map. -/
def stNoWB : CamState := ⟨⟨2, 0, [], some secGood⟩, none⟩

/-- A sensor whose settled gains read back as (4, 1) on WHITE and (5, 1)
on GROWTH. -/
def measureGood : LC → Option (ℚ × ℚ)
  | LC.WHITE => some (4, 1)
  | LC.GROWTH => some (5, 1)
  | LC.RED => none

/-- A sensor session that fails (hardware error) on every channel. -/
def measureNone : LC → Option (ℚ × ℚ) := fun _ => none

/-- A capture environment where both spawns succeed, both workers finish
in time, and no stale files exist. -/
def envGood : CaptureEnv :=
  ⟨true, true, true, true, [10, 20, 5], [3, 3, 3], none, none⟩

/-- A degenerate reference-crop sensor response (all means zero). -/
def sensor0 : ℕ → ℚ × ℚ → ℚ × ℚ × ℚ := fun _ _ => (0, 0, 0)

/-- A capture environment where the bright worker times out while a stale
file `[9, 9, 9]` is left at the bright image path. -/
def envStale : CaptureEnv :=
  ⟨true, true, false, true, [10, 20, 5], [3, 3, 3], some [9, 9, 9], none⟩

theorem alookup_aset_self {α : Type} (m : List (LC × α)) (c : LC) (v : α) :
    alookup (aset m c v) c = some v := by
  induction m with
  | nil => simp [aset, alookup]
  | cons p t ih =>
    rcases p with ⟨k, w⟩
    by_cases h : k = c
    · simp [aset, alookup, h]
    · simp [aset, alookup, h, ih]

theorem countSave_append (a b : List Event) :
    countSave (a ++ b) = countSave a + countSave b := by
  induction a with
  | nil => simp [countSave]
  | cons e t ih =>
    cases e <;> simp [countSave, ih] <;> omega

theorem countSpawn_append (a b : List Event) :
    countSpawn (a ++ b) = countSpawn a + countSpawn b := by
  induction a with
  | nil => simp [countSpawn]
  | cons e t ih =>
    cases e <;> simp [countSpawn, ih] <;> omega

theorem updateLoop_no_save (measure : LC → Option (ℚ × ℚ)) :
    ∀ (chans : List LC) (st : CamState),
      countSave (updateLoop measure chans st).trace = 0 := by
  intro chans
  induction chans with
  | nil => intro st; rfl
  | cons c rest ih =>
    intro st
    simp only [updateLoop]
    split
    · rfl
    · rfl
    · split
      · rfl
      · split
        · rfl
        · split
          · rfl
          · split
            · rfl
            · simp [countSave_append, countSave, ih]

theorem updateLoop_disk (measure : LC → Option (ℚ × ℚ)) :
    ∀ (chans : List LC) (st : CamState),
      (updateLoop measure chans st).st.disk = st.disk := by
  intro chans
  induction chans with
  | nil => intro st; rfl
  | cons c rest ih =>
    intro st
    simp only [updateLoop]
    split
    · rfl
    · rfl
    · split
      · rfl
      · split
        · rfl
        · split
          · rfl
          · split
            · rfl
            · simp [ih]

theorem wbStep_eq_spec (gains : ℚ × ℚ) (means : ℚ × ℚ × ℚ) :
    wbStep gains means = wbSpecStep gains means := by
  rcases gains with ⟨rg, bg⟩
  rcases means with ⟨r, g, b⟩
  simp only [wbStep, wbSpecStep]
  split_ifs <;> simp [sub_eq_add_neg]

theorem wbIter_eq_foldl (sensor : ℕ → ℚ × ℚ → ℚ × ℚ × ℚ) :
    ∀ (fuel i : ℕ) (gains : ℚ × ℚ),
      wbIter sensor i fuel gains =
        (List.range' i fuel).foldl
          (fun gains j => wbSpecStep gains (sensor j gains)) gains := by
  intro fuel
  induction fuel with
  | zero => intro i gains; rfl
  | succ n ih =>
    intro i gains
    rw [List.range'_succ]
    simp only [wbIter, List.foldl_cons, wbStep_eq_spec, ih]

theorem wbIter_eq_specTrace (sensor : ℕ → ℚ × ℚ → ℚ × ℚ × ℚ) :
    wbIter sensor 0 30 (1.1, 1.1) = wbSpecTrace sensor := by
  rw [wbSpecTrace, List.range_eq_range', wbIter_eq_foldl]

/-- C1: for the WHITE channel, `calibrate_white_balance` starts from gains
(1.1, 1.1), runs the adjustment loop for exactly 30 iterations (no early
exit) with the 0.025 step and 1.0 tolerance applied independently to red
and blue, and the recorded `(red_gain, blue_gain)` pair equals the
deterministic trace of the spec's step rule, for any sensor-response
function and any starting state. -/
theorem wb_white_matches_spec_trace (sensor : ℕ → ℚ × ℚ → ℚ × ℚ × ℚ) (st : CamState) :
    (calibrate_white_balance sensor LC.WHITE st).err = none ∧
    alookup (calibrate_white_balance sensor LC.WHITE st).st.config.wb LC.WHITE =
      some ⟨(wbSpecTrace sensor).1, (wbSpecTrace sensor).2⟩ := by
  simp only [calibrate_white_balance, SETTINGS_V5.framerate, SETTINGS_V5.shutter_speed,
    if_pos, wbIter_eq_specTrace]
  exact ⟨trivial, alookup_aset_self _ _ _⟩

/-- C9: the camera is treated as calibrated exactly when the configuration
loads successfully and its camera identity matches the running camera's
identity (`CAM_ID`); an identity mismatch or a load failure leaves the
camera uncalibrated after construction. -/
theorem init_calibrated_iff (r : Option Config) :
    initCalibrated r = true ↔ ∃ c, r = some c ∧ c.cam_id = CAM_ID := by
  cases r with
  | none => simp [initCalibrated]
  | some c => simp [initCalibrated]

/-- C2, evaluated at the failing input: with a valid calibrated state, a
worker-spawn failure (`OSError`) on the bright capture returns `(None, 0)`
(no usable image) but the trace is `lightOn` alone with no matching
`lightOff`: the channel light is left on, contrary to the claim.  A spawn
failure on the dark capture, by contrast, occurs after the light-off
call. -/
theorem capture_spawn_failure_light_left_on :
    (capture { envGood with spawnBrightOk := false } measureGood
        [LC.WHITE, LC.GROWTH] 0 LC.WHITE stGood).result = CaptureRes.noImage ∧
    (capture { envGood with spawnBrightOk := false } measureGood
        [LC.WHITE, LC.GROWTH] 0 LC.WHITE stGood).trace = [Event.lightOn LC.WHITE] ∧
    (capture { envGood with spawnDarkOk := false } measureGood
        [LC.WHITE, LC.GROWTH] 0 LC.WHITE stGood).result = CaptureRes.noImage ∧
    (capture { envGood with spawnDarkOk := false } measureGood
        [LC.WHITE, LC.GROWTH] 0 LC.WHITE stGood).trace =
      [Event.lightOn LC.WHITE, Event.spawn, Event.lightOff LC.WHITE] := by
  refine ⟨rfl, rfl, rfl, rfl⟩

/-- C4 counterexample: on a state with no gain section, `update` persists
the bootstrapped record via `setup_d2d` before the measurement loop, so a
hardware failure on the very first channel aborts the run with an error
while the persisted record already differs from its pre-run value, and a
save has already happened. -/
theorem update_persist_counterexample :
    (update measureNone [LC.WHITE, LC.GROWTH] 0 stNoD2D).err = some Err.hardwareError ∧
    countSave (update measureNone [LC.WHITE, LC.GROWTH] 0 stNoD2D).trace = 1 ∧
    (update measureNone [LC.WHITE, LC.GROWTH] 0 stNoD2D).st.disk ≠ stNoD2D.disk := by
  refine ⟨rfl, rfl, ?_⟩
  intro h
  have h1 : ((update measureNone [LC.WHITE, LC.GROWTH] 0 stNoD2D).st.disk.map
      (fun c => c.d2d.isSome)) = some true := rfl
  rw [h] at h1
  have h2 : stNoD2D.disk.map (fun c => c.d2d.isSome) = some false := rfl
  rw [h2] at h1
  simp at h1

/-- C5 counterexample: RED is not an allowed channel, yet
`calibrate_white_balance` on RED invokes the light-control callback (on
and then off) and writes a RED white-balance entry into the in-memory
record (its value being the static GROWTH default), and `capture` on RED
invokes the light-control callback before failing with a lookup error. -/
theorem disallowed_channel_counterexample :
    LC.RED ∉ SETTINGS_V5.allowed_channels ∧
    (calibrate_white_balance sensor0 LC.RED stGood).trace =
      [Event.lightOn LC.RED, Event.lightOff LC.RED] ∧
    alookup (calibrate_white_balance sensor0 LC.RED stGood).st.config.wb LC.RED =
      some ⟨0.4, 0.575⟩ ∧
    alookup stGood.config.wb LC.RED = none ∧
    (capture envGood measureGood [LC.WHITE, LC.GROWTH] 0 LC.RED stGood).trace =
      [Event.lightOn LC.RED] ∧
    (capture envGood measureGood [LC.WHITE, LC.GROWTH] 0 LC.RED stGood).result =
      CaptureRes.error Err.keyError := by
  refine ⟨by decide, rfl, rfl, rfl, rfl, rfl⟩

/-- C7 counterexample: the bright worker's external invocation exceeds its
20 s bound (the worker raises `TimeoutExpired`), yet `capture` reports no
failure: with a stale file `[9, 9, 9]` left at the bright path from an
earlier capture, it returns a success result built from that stale
image. -/
theorem worker_timeout_counterexample :
    photo_worker false = Except.error Err.workerTimeout ∧
    (capture { envGood with brightCompletes := false, fsBright := some [9, 9, 9] }
        measureGood [LC.WHITE, LC.GROWTH] 0 LC.WHITE stGood).result =
      CaptureRes.ok [6, 6, 6] 2 := by
  refine ⟨rfl, ?_⟩
  norm_num [capture, captureMain, photo_worker, cv2subtract, alookup, stGood, cfgGood,
    secGood, wbGood, measureGood, envGood, SETTINGS_V5.shutter_speed,
    show (LC.WHITE ≠ LC.GROWTH) from by decide]

/-- C3: under a successful dual capture, for every channel other than
GROWTH the returned image is the pixel-wise difference of the bright
frame minus the dark frame saturated at zero, and for GROWTH the bright
frame is returned unchanged; concretely, bright [10, 20, 5] minus dark
[3, 3, 3] yields [7, 17, 2], and a pixel whose dark value is at least
its bright value yields 0 (no wraparound). -/
theorem capture_dark_subtraction (env : CaptureEnv) (measure : LC → Option (ℚ × ℚ))
    (chans : List LC) (now : ℚ) (channel : LC) (st : CamState)
    (sec : D2DSection) (entry : D2DEntry) (we : WBEntry) (ssp : ℕ)
    (hd : st.config.d2d = some sec)
    (he : alookup sec.entries channel = some entry)
    (hs : SETTINGS_V5.shutter_speed channel = some ssp)
    (hw : alookup st.config.wb channel = some we)
    (hsb : env.spawnBrightOk = true) (hsd : env.spawnDarkOk = true)
    (hbc : env.brightCompletes = true) (hdc : env.darkCompletes = true)
    (hfresh : ¬ now - sec.timestamp > 3600 * 24) :
    (capture env measure chans now channel st).result =
      CaptureRes.ok
        (if channel = LC.GROWTH then env.brightImage
         else cv2subtract env.brightImage env.darkImage)
        (entry.analog_gain * entry.digital_gain) ∧
    cv2subtract [10, 20, 5] [3, 3, 3] = [7, 17, 2] ∧
    (∀ x y : ℕ, x ≤ y → cv2subtract [x] [y] = [0]) := by
  refine ⟨?_, rfl, ?_⟩
  · by_cases hg : channel = LC.GROWTH
    · subst hg
      simp [capture, captureMain, photo_worker, hd, he, hs, hw, hsb, hsd, hbc, hdc,
        hfresh]
    · simp [capture, captureMain, photo_worker, hd, he, hs, hw, hsb, hsd, hbc, hdc,
        hfresh, hg]
  · intro x y hxy
    simp [cv2subtract, Nat.sub_eq_zero_of_le hxy]

/-- Witness for C3 at a concrete calibrated WHITE-channel capture. -/
theorem capture_dark_subtraction_witness :
    (capture envGood measureGood [LC.WHITE, LC.GROWTH] 0 LC.WHITE stGood).result =
      CaptureRes.ok
        (if LC.WHITE = LC.GROWTH then envGood.brightImage
         else cv2subtract envGood.brightImage envGood.darkImage)
        ((⟨2, 1⟩ : D2DEntry).analog_gain * (⟨2, 1⟩ : D2DEntry).digital_gain) ∧
    cv2subtract [10, 20, 5] [3, 3, 3] = [7, 17, 2] ∧
    (∀ x y : ℕ, x ≤ y → cv2subtract [x] [y] = [0]) :=
  capture_dark_subtraction envGood measureGood [LC.WHITE, LC.GROWTH] 0 LC.WHITE stGood
    secGood ⟨2, 1⟩ ⟨1.1, 1.1⟩ 400000 rfl rfl rfl rfl rfl rfl rfl rfl
    (by norm_num [secGood])

/-- C4 amended: when the gain (`d2d`) section is already present, `update`
persists the record exactly once, as the final `save` after the
per-channel loop, and the persisted record then equals the in-memory one;
a mid-loop error aborts the run with no save at all, leaving the
persisted record unchanged. -/
theorem update_persists_once_amended (measure : LC → Option (ℚ × ℚ)) (chans : List LC)
    (now : ℚ) (st : CamState) (sec : D2DSection) (hd : st.config.d2d = some sec) :
    ((update measure chans now st).err = none →
      (∃ pre, (update measure chans now st).trace = pre ++ [Event.save] ∧ countSave pre = 0) ∧
      (update measure chans now st).st.disk = some (update measure chans now st).st.config) ∧
    ((update measure chans now st).err ≠ none →
      (update measure chans now st).st.disk = st.disk ∧
      countSave (update measure chans now st).trace = 0) := by
  have hboot : st.config.d2d.isNone = false := by rw [hd]; rfl
  simp only [update, hboot, Bool.false_eq_true, if_false, List.nil_append]
  rcases herr : (updateLoop measure chans st).err with _ | e
  · simp only [herr]
    rcases hsec : (updateLoop measure chans st).st.config.d2d with _ | sec2
    · simp only [hsec]
      constructor
      · intro h; exact absurd h (by simp)
      · intro _
        exact ⟨updateLoop_disk measure chans st, updateLoop_no_save measure chans st⟩
    · simp only [hsec]
      constructor
      · intro _
        refine ⟨⟨(updateLoop measure chans st).trace, rfl,
          updateLoop_no_save measure chans st⟩, rfl⟩
      · intro h; exact absurd rfl h
  · simp only [herr]
    constructor
    · intro h; exact absurd h (by simp)
    · intro _
      exact ⟨updateLoop_disk measure chans st, updateLoop_no_save measure chans st⟩

/-- Witness for the amended C4 on a concrete successful run. -/
theorem update_persists_once_amended_witness :
    ∃ pre, (update measureGood [LC.WHITE, LC.GROWTH] 7 stGood).trace = pre ++ [Event.save] ∧
      countSave pre = 0 :=
  ((update_persists_once_amended measureGood [LC.WHITE, LC.GROWTH] 7 stGood secGood rfl).1 rfl).1

/-- C5 amended: no allowed-channels check exists.  For a channel outside
`allowed_channels`, `calibrate_white_balance` invokes the light-control
callback (on and off) and writes the static GROWTH default white balance
into the record for that channel, and `capture` (on a state whose gain
section is present) invokes the light-control callback and then fails
with a lookup error. -/
theorem disallowed_channel_amended (c : LC) (hc : c ∉ SETTINGS_V5.allowed_channels) :
    (∀ (sensor : ℕ → ℚ × ℚ → ℚ × ℚ × ℚ) (st : CamState),
      (calibrate_white_balance sensor c st).trace = [Event.lightOn c, Event.lightOff c] ∧
      alookup (calibrate_white_balance sensor c st).st.config.wb c = some ⟨0.4, 0.575⟩) ∧
    (∀ (env : CaptureEnv) (measure : LC → Option (ℚ × ℚ)) (chans : List LC) (now : ℚ)
        (st : CamState) (sec : D2DSection), st.config.d2d = some sec →
      (capture env measure chans now c st).result = CaptureRes.error Err.keyError ∧
      (capture env measure chans now c st).trace = [Event.lightOn c]) := by
  have hred : c = LC.RED := by
    cases c
    · exact absurd (by decide) hc
    · exact absurd (by decide) hc
    · rfl
  subst hred
  constructor
  · intro sensor st
    refine ⟨by simp [calibrate_white_balance, SETTINGS_V5.wb], ?_⟩
    simp [calibrate_white_balance, SETTINGS_V5.wb, alookup_aset_self]
  · intro env measure chans now st sec hd
    rcases hent : alookup sec.entries LC.RED with _ | entry
    · exact ⟨by simp [capture, captureMain, hd, hent],
        by simp [capture, captureMain, hd, hent]⟩
    · exact ⟨by simp [capture, captureMain, hd, hent, SETTINGS_V5.shutter_speed],
        by simp [capture, captureMain, hd, hent, SETTINGS_V5.shutter_speed]⟩

/-- Witness for the amended C5 at the RED channel. -/
theorem disallowed_channel_amended_witness :
    (calibrate_white_balance sensor0 LC.RED stNoWB).trace =
      [Event.lightOn LC.RED, Event.lightOff LC.RED] ∧
    alookup (calibrate_white_balance sensor0 LC.RED stNoWB).st.config.wb LC.RED =
      some ⟨0.4, 0.575⟩ :=
  (disallowed_channel_amended LC.RED (by decide)).1 sensor0 stNoWB

/-- C6: if at the end of a successful capture the elapsed time since the
stored gain timestamp exceeds 24 hours, `update` is triggered (the final
state is `update`'s state and the trace appends `update`'s events after
the capture events), and the returned image and effective gain are
computed from the pre-recalibration record (the gain is the product of
the entry looked up before recalibration). -/
theorem capture_stale_triggers_update (env : CaptureEnv) (measure : LC → Option (ℚ × ℚ))
    (chans : List LC) (now : ℚ) (channel : LC) (st : CamState)
    (sec : D2DSection) (entry : D2DEntry) (we : WBEntry) (ssp : ℕ)
    (hd : st.config.d2d = some sec)
    (he : alookup sec.entries channel = some entry)
    (hs : SETTINGS_V5.shutter_speed channel = some ssp)
    (hw : alookup st.config.wb channel = some we)
    (hsb : env.spawnBrightOk = true) (hsd : env.spawnDarkOk = true)
    (hbc : env.brightCompletes = true) (hdc : env.darkCompletes = true)
    (hstale : now - sec.timestamp > 3600 * 24)
    (hup : (update measure chans now st).err = none) :
    (capture env measure chans now channel st).result =
      CaptureRes.ok
        (if channel = LC.GROWTH then env.brightImage
         else cv2subtract env.brightImage env.darkImage)
        (entry.analog_gain * entry.digital_gain) ∧
    (capture env measure chans now channel st).st = (update measure chans now st).st ∧
    (capture env measure chans now channel st).trace =
      [Event.lightOn channel, Event.spawn, Event.lightOff channel, Event.spawn] ++
        (update measure chans now st).trace := by
  by_cases hg : channel = LC.GROWTH
  · subst hg
    refine ⟨?_, ?_, ?_⟩ <;>
      simp [capture, captureMain, photo_worker, hd, he, hs, hw, hsb, hsd, hbc, hdc,
        hstale, hup]
  · refine ⟨?_, ?_, ?_⟩ <;>
      simp [capture, captureMain, photo_worker, hd, he, hs, hw, hsb, hsd, hbc, hdc,
        hstale, hup, hg]

/-- Witness for C6 at a concrete stale-gain WHITE-channel capture. -/
theorem capture_stale_triggers_update_witness :
    (capture envGood measureGood [LC.WHITE, LC.GROWTH] 100000 LC.WHITE stGood).result =
      CaptureRes.ok
        (if LC.WHITE = LC.GROWTH then envGood.brightImage
         else cv2subtract envGood.brightImage envGood.darkImage)
        ((⟨2, 1⟩ : D2DEntry).analog_gain * (⟨2, 1⟩ : D2DEntry).digital_gain) ∧
    (capture envGood measureGood [LC.WHITE, LC.GROWTH] 100000 LC.WHITE stGood).st =
      (update measureGood [LC.WHITE, LC.GROWTH] 100000 stGood).st ∧
    (capture envGood measureGood [LC.WHITE, LC.GROWTH] 100000 LC.WHITE stGood).trace =
      [Event.lightOn LC.WHITE, Event.spawn, Event.lightOff LC.WHITE, Event.spawn] ++
        (update measureGood [LC.WHITE, LC.GROWTH] 100000 stGood).trace :=
  capture_stale_triggers_update envGood measureGood [LC.WHITE, LC.GROWTH] 100000 LC.WHITE
    stGood secGood ⟨2, 1⟩ ⟨1.1, 1.1⟩ 400000 rfl rfl rfl rfl rfl rfl rfl rfl
    (by norm_num [secGood]) rfl

/-- C7 amended: a worker invocation exceeding the timeout raises
`TimeoutExpired` inside the worker, exactly two worker spawns occur (no
retry), but the failure is not propagated to `capture`'s caller: with no
pre-existing file at the bright path the image load fails with a
missing-file error, and with a stale file present `capture` returns a
success result built from the stale image. -/
theorem worker_timeout_amended (env : CaptureEnv) (measure : LC → Option (ℚ × ℚ))
    (chans : List LC) (now : ℚ) (channel : LC) (st : CamState)
    (sec : D2DSection) (entry : D2DEntry) (we : WBEntry) (ssp : ℕ)
    (hd : st.config.d2d = some sec)
    (he : alookup sec.entries channel = some entry)
    (hs : SETTINGS_V5.shutter_speed channel = some ssp)
    (hw : alookup st.config.wb channel = some we)
    (hsb : env.spawnBrightOk = true) (hsd : env.spawnDarkOk = true)
    (hbc : env.brightCompletes = false) (hdc : env.darkCompletes = true)
    (hch : channel ≠ LC.GROWTH)
    (hfresh : ¬ now - sec.timestamp > 3600 * 24) :
    photo_worker env.brightCompletes = Except.error Err.workerTimeout ∧
    countSpawn (capture env measure chans now channel st).trace = 2 ∧
    (env.fsBright = none →
      (capture env measure chans now channel st).result =
        CaptureRes.error Err.fileNotFound) ∧
    (∀ s, env.fsBright = some s →
      (capture env measure chans now channel st).result =
        CaptureRes.ok (cv2subtract s env.darkImage)
          (entry.analog_gain * entry.digital_gain)) := by
  refine ⟨by simp [photo_worker, hbc], ?_, ?_, ?_⟩
  · rcases hfb : env.fsBright with _ | s <;>
      simp [capture, captureMain, photo_worker, hd, he, hs, hw, hsb, hsd, hbc, hdc,
        hch, hfresh, hfb, countSpawn]
  · intro hfb
    simp [capture, captureMain, photo_worker, hd, he, hs, hw, hsb, hsd, hbc, hdc,
      hch, hfresh, hfb]
  · intro s hfb
    simp [capture, captureMain, photo_worker, hd, he, hs, hw, hsb, hsd, hbc, hdc,
      hch, hfresh, hfb]

/-- Witness for the amended C7 at a concrete timed-out bright capture with
a stale file present. -/
theorem worker_timeout_amended_witness :
    photo_worker envStale.brightCompletes = Except.error Err.workerTimeout ∧
    countSpawn (capture envStale measureGood [LC.WHITE, LC.GROWTH] 0 LC.WHITE stGood).trace = 2 ∧
    (envStale.fsBright = none →
      (capture envStale measureGood [LC.WHITE, LC.GROWTH] 0 LC.WHITE stGood).result =
        CaptureRes.error Err.fileNotFound) ∧
    (∀ s, envStale.fsBright = some s →
      (capture envStale measureGood [LC.WHITE, LC.GROWTH] 0 LC.WHITE stGood).result =
        CaptureRes.ok (cv2subtract s envStale.darkImage)
          ((⟨2, 1⟩ : D2DEntry).analog_gain * (⟨2, 1⟩ : D2DEntry).digital_gain)) :=
  worker_timeout_amended envStale
    measureGood [LC.WHITE, LC.GROWTH] 0 LC.WHITE stGood secGood ⟨2, 1⟩ ⟨1.1, 1.1⟩ 400000
    rfl rfl rfl rfl rfl rfl rfl rfl (by decide) (by norm_num [secGood])

/-- C10: `update` and `capture` read `config["wb"][channel]` with no
presence guard, after the light-on callback: for a channel with no stored
white-balance entry, the per-channel loop body fails with a lookup error
right after lighting the channel and opening the sensor (no light-off
follows), `update` on such a first channel propagates that error, and
`capture` fails with a lookup error right after its light-on call. -/
theorem wb_lookup_unguarded :
    (∀ (measure : LC → Option (ℚ × ℚ)) (c : LC) (rest : List LC) (st : CamState)
        (fr : ℚ) (ssp : ℕ),
      SETTINGS_V5.framerate c = some fr →
      SETTINGS_V5.shutter_speed c = some ssp →
      alookup st.config.wb c = none →
      (updateLoop measure (c :: rest) st).err = some Err.keyError ∧
      (updateLoop measure (c :: rest) st).trace =
        [Event.lightOn c, Event.sensorOpen, Event.sensorClose]) ∧
    (∀ (measure : LC → Option (ℚ × ℚ)) (c : LC) (rest : List LC) (now : ℚ)
        (st : CamState) (sec : D2DSection) (fr : ℚ) (ssp : ℕ),
      st.config.d2d = some sec →
      SETTINGS_V5.framerate c = some fr →
      SETTINGS_V5.shutter_speed c = some ssp →
      alookup st.config.wb c = none →
      (update measure (c :: rest) now st).err = some Err.keyError ∧
      (update measure (c :: rest) now st).trace =
        [Event.lightOn c, Event.sensorOpen, Event.sensorClose]) ∧
    (∀ (env : CaptureEnv) (measure : LC → Option (ℚ × ℚ)) (chans : List LC) (now : ℚ)
        (channel : LC) (st : CamState) (sec : D2DSection) (entry : D2DEntry) (ssp : ℕ),
      st.config.d2d = some sec →
      alookup sec.entries channel = some entry →
      SETTINGS_V5.shutter_speed channel = some ssp →
      alookup st.config.wb channel = none →
      (capture env measure chans now channel st).result = CaptureRes.error Err.keyError ∧
      (capture env measure chans now channel st).trace = [Event.lightOn channel]) := by
  refine ⟨?_, ?_, ?_⟩
  · intro measure c rest st fr ssp hfr hss hwb
    exact ⟨by simp [updateLoop, hfr, hss, hwb], by simp [updateLoop, hfr, hss, hwb]⟩
  · intro measure c rest now st sec fr ssp hd hfr hss hwb
    have hboot : st.config.d2d.isNone = false := by rw [hd]; rfl
    exact ⟨by simp [update, updateLoop, hboot, hfr, hss, hwb],
      by simp [update, updateLoop, hboot, hfr, hss, hwb]⟩
  · intro env measure chans now channel st sec entry ssp hd hent hss hwb
    exact ⟨by simp [capture, captureMain, hd, hent, hss, hwb],
      by simp [capture, captureMain, hd, hent, hss, hwb]⟩

/-- Witness for C10 at a concrete state with an empty white-balance map. -/
theorem wb_lookup_unguarded_witness :
    (update measureGood [LC.WHITE] 0 stNoWB).err = some Err.keyError ∧
    (capture envGood measureGood [] 0 LC.WHITE stNoWB).result =
      CaptureRes.error Err.keyError :=
  ⟨(wb_lookup_unguarded.2.1 measureGood LC.WHITE [] 0 stNoWB secGood (10 / 4) 400000
      rfl rfl rfl rfl).1,
   (wb_lookup_unguarded.2.2 envGood measureGood [] 0 LC.WHITE stNoWB secGood ⟨2, 1⟩ 400000
      rfl rfl rfl rfl).1⟩

/-- C8: calling `capture` on a state with no gain section first creates,
via `setup_d2d`, a gain section with analog gain 1.0 and digital gain 1.0
for every allowed channel and the current timestamp (persisting it), then
runs `update`, all before any worker spawn; the image is only captured
afterwards, with the effective gain taken from the freshly calibrated
record. -/
theorem capture_bootstrap (env : CaptureEnv) (measure : LC → Option (ℚ × ℚ)) (now : ℚ)
    (st : CamState) (aw dw ag dg : ℚ) (wwe gwe : WBEntry)
    (hd : st.config.d2d = none)
    (hw1 : alookup st.config.wb LC.WHITE = some wwe)
    (hw2 : alookup st.config.wb LC.GROWTH = some gwe)
    (hm1 : measure LC.WHITE = some (aw, dw))
    (hm2 : measure LC.GROWTH = some (ag, dg))
    (hsb : env.spawnBrightOk = true) (hsd : env.spawnDarkOk = true)
    (hbc : env.brightCompletes = true) (hdc : env.darkCompletes = true) :
    (∀ c ∈ SETTINGS_V5.allowed_channels,
      ((setup_d2d now st).1.config.d2d.map fun sec => alookup sec.entries c) =
        some (some ⟨1, 1⟩)) ∧
    ((setup_d2d now st).1.config.d2d.map D2DSection.timestamp = some now) ∧
    (capture env measure [LC.WHITE, LC.GROWTH] now LC.WHITE st).trace =
      ([Event.save] ++
        (update measure [LC.WHITE, LC.GROWTH] now (setup_d2d now st).1).trace) ++
      [Event.lightOn LC.WHITE, Event.spawn, Event.lightOff LC.WHITE, Event.spawn] ∧
    (capture env measure [LC.WHITE, LC.GROWTH] now LC.WHITE st).result =
      CaptureRes.ok (cv2subtract env.brightImage env.darkImage) (aw * dw) := by
  have hfr : ((3600 * 24 : ℚ) < 0) = False := by norm_num
  have hboot : st.config.d2d.isNone = true := by rw [hd]; rfl
  have hwg : LC.WHITE ≠ LC.GROWTH := by decide
  have hgw : LC.GROWTH ≠ LC.WHITE := by decide
  refine ⟨?_, ?_, ?_, ?_⟩
  · intro c hcm
    simp only [SETTINGS_V5.allowed_channels, List.mem_cons,
      List.mem_singleton] at hcm
    rcases hcm with h | h | h
    · subst h; simp [setup_d2d, saveConfig, alookup]
    · subst h; simp [setup_d2d, saveConfig, alookup, hgw, hwg]
    · cases h
  · simp [setup_d2d, saveConfig]
  · simp [capture, captureMain, update, updateLoop, setup_d2d, saveConfig, photo_worker,
      alookup, aset, SETTINGS_V5.framerate, SETTINGS_V5.shutter_speed,
      hd, hboot, hw1, hw2, hm1, hm2, hsb, hsd, hbc, hdc, hfr, hwg, hgw]
  · simp [capture, captureMain, update, updateLoop, setup_d2d, saveConfig, photo_worker,
      alookup, aset, SETTINGS_V5.framerate, SETTINGS_V5.shutter_speed,
      hd, hboot, hw1, hw2, hm1, hm2, hsb, hsd, hbc, hdc, hfr, hwg, hgw]

/-- Witness for C8 at a concrete state with no gain section. -/
theorem capture_bootstrap_witness :
    (∀ c ∈ SETTINGS_V5.allowed_channels,
      ((setup_d2d 0 stNoD2D).1.config.d2d.map fun sec => alookup sec.entries c) =
        some (some ⟨1, 1⟩)) ∧
    ((setup_d2d 0 stNoD2D).1.config.d2d.map D2DSection.timestamp = some 0) ∧
    (capture envGood measureGood [LC.WHITE, LC.GROWTH] 0 LC.WHITE stNoD2D).trace =
      ([Event.save] ++
        (update measureGood [LC.WHITE, LC.GROWTH] 0 (setup_d2d 0 stNoD2D).1).trace) ++
      [Event.lightOn LC.WHITE, Event.spawn, Event.lightOff LC.WHITE, Event.spawn] ∧
    (capture envGood measureGood [LC.WHITE, LC.GROWTH] 0 LC.WHITE stNoD2D).result =
      CaptureRes.ok (cv2subtract envGood.brightImage envGood.darkImage) ((4 : ℚ) * 1) :=
  capture_bootstrap envGood measureGood 0 stNoD2D 4 1 5 1 ⟨1.1, 1.1⟩ ⟨0.4, 0.575⟩
    rfl rfl rfl rfl rfl rfl rfl rfl rfl
